import Mathlib

/-!
Verification of the Tanjun dependency-injection resolver (`tanjun/injector.py`).

The Python module is shallowly embedded below.  Python types and plain
objects are abstracted as two type parameters `Ty` and `Obj`; the semantic
facts the code consults about them (the `issubclass` relation, the runtime
type of an object, an object's truthiness, the `traits.Client` and
`traits.Component` trait types, and `inspect.signature`) are collected in a
`PySem` record.  Python dictionaries are association lists with
insert-replaces-and-lookup-first semantics, Python `set` equality is
membership equality of the underlying lists, and fallible Python code
returns `Except` with an error type mirroring the exception classes the
module can raise.  Mutation of `InjectorClient` (its memoized component
mapping) is explicit state passing.
-/

namespace Tanjun

/-- The `UndefinedOr` union from the source: either the `UNDEFINED` sentinel
(the unique `Undefined()` instance) or a real value.  The sentinel is an
ordinary Python object with default truthiness, i.e. it is truthy. -/
inductive UndefinedOr (α : Type) where
  | undefined
  | val (a : α)
deriving DecidableEq, Repr

/-- A Python runtime value as this module handles them: the `UNDEFINED`
sentinel, `None`, a `bool`, or an opaque object drawn from `Obj`
(clients, components, callables, dependency values ... ). -/
inductive PyVal (Obj : Type) where
  | undefined
  | pynone
  | bool (b : Bool)
  | obj (o : Obj)
deriving DecidableEq, Repr

/-- The exceptions `injector.py` can raise, by class; the unresolved
dependency `RuntimeError` carries the requested type, since its message
interpolates it. -/
inductive PyError (Ty : Type) where
  | typeError (msg : String)
  | valueError (msg : String)
  | attributeError (attr : String)
  | assertionError
  | unresolvedType (t : Ty)
  | runtimeError (msg : String)
deriving DecidableEq, Repr

/-- The `inspect.Parameter.kind` values relevant to the module. -/
inductive ParamKind where
  | positionalOnly
  | positionalOrKeyword
  | keywordOnly
deriving DecidableEq, Repr

/-- The `Injected` marker: a `callback` slot holding `UNDEFINED` or a
callable object, and a `type` slot holding `UNDEFINED` or a type. -/
structure InjectedMarker (Ty Obj : Type) where
  callback : UndefinedOr Obj
  type_ : UndefinedOr Ty
deriving DecidableEq, Repr

/-- A parameter default value as seen by `inspect.signature`:
`Parameter.empty` (no default), an `Injected` marker instance, or an
ordinary (non-class) default value. -/
inductive ParamDefault (Ty Obj : Type) where
  | empty
  | injected (m : InjectedMarker Ty Obj)
  | value (v : PyVal Obj)
deriving DecidableEq, Repr

/-- One entry of `inspect.signature(callback).parameters`. -/
structure Param (Ty Obj : Type) where
  kind : ParamKind
  default : ParamDefault Ty Obj
deriving DecidableEq, Repr

/-- The ambient Python semantics the module consults: the class relation,
runtime types, truthiness of opaque objects, the two trait types from
`tanjun.traits`, and signature introspection of callables. -/
structure PySem (Ty Obj : Type) where
  issubclass : Ty → Ty → Bool
  typeOf : Obj → Ty
  truthy : Obj → Bool
  clientTrait : Ty
  componentTrait : Ty
  signature : Obj → List (String × Param Ty Obj)

/-- Truthiness of a `PyVal`: `UNDEFINED` defines no `__bool__` and is
truthy, `None` is falsy, a `bool` is itself, an opaque object follows the
semantics record. -/
def PyVal.truthy {Ty Obj : Type} (S : PySem Ty Obj) : PyVal Obj → Bool
  | .undefined => true
  | .pynone => false
  | .bool b => b
  | .obj o => S.truthy o

/-- Truthiness of an `UndefinedOr` slot (`UNDEFINED` is truthy). -/
def UndefinedOr.truthy {Ty Obj : Type} (S : PySem Ty Obj) : UndefinedOr Obj → Bool
  | .undefined => true
  | .val o => S.truthy o

/-- An invocation context (`traits.Context`): a client object and an
optional current component (`None` or a component object). -/
structure Context (Obj : Type) where
  client : Obj
  component : PyVal Obj
deriving DecidableEq, Repr

/-- Python `dict` lookup on an association list (first matching key; a
dict built by `dictInsert` has at most one entry per key). -/
def dictLookup {α β : Type} [DecidableEq α] : List (α × β) → α → Option β
  | [], _ => none
  | (k, v) :: rest, k' => if k = k' then some v else dictLookup rest k'

/-- Python `dict` assignment `d[k] = v`: replace the existing entry in
place or append a new one. -/
def dictInsert {α β : Type} [DecidableEq α] : List (α × β) → α → β → List (α × β)
  | [], k, v => [(k, v)]
  | (k', v') :: rest, k, v =>
      if k' = k then (k, v) :: rest else (k', v') :: dictInsert rest k v

/-- Python `set` equality of two collections, by membership of elements. -/
def listSetEq {α : Type} [DecidableEq α] (a b : List α) : Bool :=
  a.all (fun x => b.contains x) && b.all (fun x => a.contains x)

/-- The state of an `InjectorClient`: the three mappings, the memoized
component mapping with its snapshot, and the host client's live component
collection (`self._client.components`, read fresh on each use). -/
structure InjectorClient (Ty Obj : Type) where
  callback_overrides : List (Obj × Obj)
  client_components : List Obj
  component_mapping_values : List Obj
  component_mapping : List (Ty × Obj)
  type_dependencies : List (Ty × PyVal Obj)
deriving DecidableEq, Repr

namespace InjectorClient

variable {Ty Obj : Type} [DecidableEq Ty] [DecidableEq Obj]

/-- Source `add_type_dependency(type_, value)`. -/
def add_type_dependency (c : InjectorClient Ty Obj) (t : Ty) (v : PyVal Obj) :
    InjectorClient Ty Obj :=
  { c with type_dependencies := dictInsert c.type_dependencies t v }

/-- Source `get_type_dependency(type_)`: `dict.get` with the `UNDEFINED` default. -/
def get_type_dependency (c : InjectorClient Ty Obj) (t : Ty) : UndefinedOr (PyVal Obj) :=
  match dictLookup c.type_dependencies t with
  | some v => .val v
  | none => .undefined

/-- Source `add_callable_override(callback, override)`. -/
def add_callable_override (c : InjectorClient Ty Obj) (cb override : Obj) :
    InjectorClient Ty Obj :=
  { c with callback_overrides := dictInsert c.callback_overrides cb override }

/-- Source `get_callable_override(callback)`: `dict.get`, `None` when absent. -/
def get_callable_override (c : InjectorClient Ty Obj) (cb : Obj) : Option Obj :=
  dictLookup c.callback_overrides cb

/-- Source `_get_component_mapping`: if the stored snapshot differs (as a set)
from the host's current components, rebuild `{type(c): c for c in
components}` (later components win on a type collision) and store the new
snapshot; otherwise return the cached mapping unchanged. -/
def get_component_mapping (S : PySem Ty Obj) (c : InjectorClient Ty Obj) :
    List (Ty × Obj) × InjectorClient Ty Obj :=
  if listSetEq c.component_mapping_values c.client_components then
    (c.component_mapping, c)
  else
    let m := c.client_components.foldl (fun d comp => dictInsert d (S.typeOf comp) comp) []
    (m, { c with component_mapping := m, component_mapping_values := c.client_components })

end InjectorClient

/-- A getter as produced by the two factories.  The source returns
closures; their captured data is a callable slot (for
`_make_callback_getter`) or the requested type together with the two
`issubclass` tests evaluated at creation time (for `_make_type_getter`).
Running a getter is `Getter.run` below. -/
inductive Getter (Ty Obj : Type) where
  | callbackGetter (cb : UndefinedOr Obj)
  | typeGetter (type_ : Ty) (default_to_client : Bool) (try_component : Bool)
deriving DecidableEq, Repr

namespace InjectorClient

variable {Ty Obj : Type} [DecidableEq Ty] [DecidableEq Obj]

/-- Source `_make_callback_getter(callback)`: the closure only captures the
callable slot (the override lookup happens when the getter runs).  The
source annotates the argument as a callable, but the call site in
`resolve_callback_to_getters` passes `parameter.default.callback`, which
may hold `UNDEFINED`, so the slot is `UndefinedOr`. -/
def make_callback_getter (cb : UndefinedOr Obj) : Getter Ty Obj :=
  .callbackGetter cb

/-- Source `_make_type_getter(type_)`: evaluates `issubclass(type_, traits.Client)`
and `issubclass(type_, traits.Component)` once, at creation time. -/
def make_type_getter (S : PySem Ty Obj) (t : Ty) : Getter Ty Obj :=
  .typeGetter t (S.issubclass t S.clientTrait) (S.issubclass t S.componentTrait)

end InjectorClient

/-- Running a getter against a context and the current `InjectorClient`
state.  A callback getter returns `self._callback_overrides.get(callback,
callback)` (when the slot holds `UNDEFINED`, no override can match an
object key, so `UNDEFINED` itself comes back).  A type getter follows the
source: the `type_dependencies` entry if present; else the context's
client when `default_to_client`; else, when `try_component`, a truthy hit
in the (possibly rebuilt) component mapping, then a truthy
`ctx.component`; else `RuntimeError` naming the type. -/
def Getter.run {Ty Obj : Type} [DecidableEq Ty] [DecidableEq Obj] (S : PySem Ty Obj)
    (g : Getter Ty Obj) (c : InjectorClient Ty Obj) (ctx : Context Obj) :
    Except (PyError Ty) (PyVal Obj) × InjectorClient Ty Obj :=
  match g with
  | .callbackGetter cb =>
      match cb with
      | .undefined => (.ok .undefined, c)
      | .val f => (.ok (.obj ((dictLookup c.callback_overrides f).getD f)), c)
  | .typeGetter t default_to_client try_component =>
      match dictLookup c.type_dependencies t with
      | some v => (.ok v, c)
      | none =>
          if default_to_client then (.ok (.obj ctx.client), c)
          else if try_component then
            let (mapping, c') := c.get_component_mapping S
            match dictLookup mapping t with
            | some comp =>
                if S.truthy comp then (.ok (.obj comp), c')
                else if (ctx.component).truthy S then (.ok ctx.component, c')
                else (.error (.unresolvedType t), c')
            | none =>
                if (ctx.component).truthy S then (.ok ctx.component, c')
                else (.error (.unresolvedType t), c')
          else (.error (.unresolvedType t), c)

/-- The membership test on line 155 of the source,
`isinstance(Injected, parameter.default)`, with the class object
`Injected` as the FIRST argument and the parameter's default value as the
`classinfo` argument.  `Parameter.empty` is a class (`inspect._empty`),
and the class object `Injected` is not an instance of it, so the call
returns `False`; an `Injected` marker instance or an ordinary non-class
default value is not a valid `classinfo`, so the call raises `TypeError`. -/
def isinstanceInjectedOfDefault {Ty Obj : Type} :
    ParamDefault Ty Obj → Except (PyError Ty) Bool
  | .empty => .ok false
  | .injected _ => .error (.typeError "isinstance() arg 2 must be a type or tuple of types")
  | .value _ => .error (.typeError "isinstance() arg 2 must be a type or tuple of types")

/-- Lines 161-166 of the source: dispatch on `if parameter.default.callback:`
(truthiness of the slot) to a callback getter, else assert the type slot is
set and build a type getter. -/
def paramGetter {Ty Obj : Type} [DecidableEq Ty] [DecidableEq Obj] (S : PySem Ty Obj)
    (m : InjectedMarker Ty Obj) : Except (PyError Ty) (Getter Ty Obj) :=
  if m.callback.truthy S then .ok (InjectorClient.make_callback_getter m.callback)
  else
    match m.type_ with
    | .undefined => .error .assertionError
    | .val t => .ok (InjectorClient.make_type_getter S t)

/-- The parameter loop of `resolve_callback_to_getters`.  For each
parameter: the guard `parameter.default is parameter.default and not
isinstance(Injected, parameter.default)` (the first conjunct is identity
of a value with itself, hence always true) decides `continue`; then a
positional-only parameter raises `ValueError`; then the
`parameter.default.callback` dispatch — an attribute only marker instances
have — selects the getter. -/
def resolveParams {Ty Obj : Type} [DecidableEq Ty] [DecidableEq Obj] (S : PySem Ty Obj) :
    List (String × Param Ty Obj) → Except (PyError Ty) (List (String × Getter Ty Obj))
  | [] => .ok []
  | (name, p) :: rest =>
      match isinstanceInjectedOfDefault p.default with
      | .error e => .error e
      | .ok isInj =>
          if !isInj then resolveParams S rest
          else if p.kind = .positionalOnly then
            .error (.valueError "Injected positional only arguments are not supported")
          else
            match p.default with
            | .injected m =>
                match paramGetter S m with
                | .error e => .error e
                | .ok g =>
                    match resolveParams S rest with
                    | .error e => .error e
                    | .ok tl => .ok ((name, g) :: tl)
            | _ => .error (.attributeError "callback")

/-- Source `resolve_callback_to_getters(callback)`: run the parameter loop over
`inspect.signature(callback).parameters.items()`. -/
def InjectorClient.resolve_callback_to_getters {Ty Obj : Type} [DecidableEq Ty]
    [DecidableEq Obj] (S : PySem Ty Obj) (callback : Obj) :
    Except (PyError Ty) (List (String × Getter Ty Obj)) :=
  resolveParams S (S.signature callback)

/-- Resolving the cached getters against a context, in mapping order,
threading the injector state (`{name: getter(ctx) for name, getter in
self._cached_getters.items()}`); the first exception aborts the
comprehension. -/
def resolveGetters {Ty Obj : Type} [DecidableEq Ty] [DecidableEq Obj] (S : PySem Ty Obj) :
    List (String × Getter Ty Obj) → InjectorClient Ty Obj → Context Obj →
    Except (PyError Ty) (List (String × PyVal Obj)) × InjectorClient Ty Obj
  | [], c, _ => (.ok [], c)
  | (name, g) :: rest, c, ctx =>
      match g.run S c ctx with
      | (.error e, c') => (.error e, c')
      | (.ok v, c') =>
          match resolveGetters S rest c' ctx with
          | (.error e, c'') => (.error e, c'')
          | (.ok tl, c'') => (.ok ((name, v) :: tl), c'')

/-- The arguments a Python call expression supplies to a callable: either
positional values or keyword name/value pairs.  Star-unpacking a dict, as
on line 201 of the source, supplies the dict's KEYS — here the parameter
names — as positional arguments. -/
inductive SuppliedArgs (Obj : Type) where
  | positional (names : List String)
  | keyword (pairs : List (String × PyVal Obj))
deriving DecidableEq, Repr

/-- The value a wrapped callback's invocation produces: a plain value, or
an awaitable that, once awaited, yields a value. -/
inductive CallResult (Obj : Type) where
  | value (v : PyVal Obj)
  | awaitable (v : PyVal Obj)
deriving DecidableEq, Repr

/-- A `__slots__` attribute that `__init__` may have left unassigned
(reading it then raises `AttributeError`). -/
inductive Slot (α : Type) where
  | unset
  | set (a : α)
deriving DecidableEq, Repr

/-- The state of an `InjectableCheck`: the wrapped callback, the
`_cached_getters` slot (only ANNOTATED in `__init__`, hence unset on a
fresh instance), the optional injector, and the cached async flag. -/
structure InjectableCheck (Ty Obj : Type) where
  callback : Obj
  cached_getters : Slot (Option (List (String × Getter Ty Obj)))
  injector : Option (InjectorClient Ty Obj)
  is_async : Option Bool
deriving DecidableEq, Repr

namespace InjectableCheck

variable {Ty Obj : Type} [DecidableEq Ty] [DecidableEq Obj]

/-- Source `InjectableCheck.__init__(callback)`: line 184 only annotates
`_cached_getters` without assigning it, so that slot stays unset. -/
def init (cb : Obj) : InjectableCheck Ty Obj :=
  { callback := cb, cached_getters := .unset, injector := none, is_async := none }

/-- Source `add_injector(client)`: `if self.injector:` — `None` is falsy and an
`InjectorClient` instance is truthy — raises when already set, else
stores the injector. -/
def add_injector (chk : InjectableCheck Ty Obj) (inj : InjectorClient Ty Obj) :
    Except (PyError Ty) (InjectableCheck Ty Obj) :=
  match chk.injector with
  | some _ => .error (.runtimeError "Injector already set for this check")
  | none => .ok { chk with injector := some inj }

/-- Shared tail of `__call__`: apply the (already decided) async flag to
the callback's result.  The async branch asserts the result is awaitable
and awaits it (returning whatever value comes out); the sync branch
asserts the result is a `bool`. -/
def applyAsyncFlag {Ty : Type} (flag : Bool) (result : CallResult Obj) :
    Except (PyError Ty) (PyVal Obj) :=
  if flag then
    match result with
    | .awaitable v => .ok v
    | .value _ => .error .assertionError
  else
    match result with
    | .value v =>
        match v with
        | .bool b => .ok (.bool b)
        | _ => .error .assertionError
    | .awaitable _ => .error .assertionError

/-- Source `InjectableCheck.__call__(ctx)`.  `callEval` gives the wrapped
callback's behaviour on whatever arguments the call expression supplies.
The steps, in source order: fail if no injector is attached; read
`_cached_getters` (AttributeError if the slot was never assigned) and
resolve the callback's getters if it holds `None`, caching them; resolve
every getter against `ctx` (this can rebuild the injector's component
mapping, so the updated injector is stored back); call the callback with
the dict of resolved values star-unpacked — i.e. with the parameter
NAMES as positional arguments; decide and cache the async flag from the
first result's shape; and apply the flag. -/
def call (S : PySem Ty Obj) (callEval : Obj → SuppliedArgs Obj → CallResult Obj)
    (chk : InjectableCheck Ty Obj) (ctx : Context Obj) :
    Except (PyError Ty) (PyVal Obj) × InjectableCheck Ty Obj :=
  match chk.injector with
  | none =>
      (.error (.runtimeError "Cannot call an injectable check before the injector has been set"),
       chk)
  | some inj =>
      match chk.cached_getters with
      | .unset => (.error (.attributeError "_cached_getters"), chk)
      | .set slot =>
          match (match slot with
                 | some g => Except.ok g
                 | none => InjectorClient.resolve_callback_to_getters S chk.callback :
              Except (PyError Ty) (List (String × Getter Ty Obj))) with
          | .error e => (.error e, chk)
          | .ok getters =>
              let chk1 := { chk with cached_getters := .set (some getters) }
              match resolveGetters S getters inj ctx with
              | (.error e, inj') => (.error e, { chk1 with injector := some inj' })
              | (.ok pairs, inj') =>
                  let chk2 := { chk1 with injector := some inj' }
                  let result := callEval chk.callback (.positional (pairs.map Prod.fst))
                  match chk.is_async with
                  | none =>
                      let flag := match result with
                                  | .awaitable _ => true
                                  | .value _ => false
                      (applyAsyncFlag flag result, { chk2 with is_async := some flag })
                  | some flag => (applyAsyncFlag flag result, chk2)

end InjectableCheck

/-- Written from the specification text, for comparison with
`Getter.run ∘ make_type_getter`: the resolution order exactly as stated —
(1) an exact `type_dependencies` entry; (2) else, if the requested type is
the host client's type or a supertype of it, the context's client; (3)
else, if the requested type is a component type or a supertype of one and
the component mapping resolves it, that component; (4) else, if the
current context exposes a current component, that component; (5) else an
unresolved-dependency error naming the type. -/
def specTypeGetterStated {Ty Obj : Type} [DecidableEq Ty] [DecidableEq Obj]
    (S : PySem Ty Obj) (c : InjectorClient Ty Obj) (t : Ty) (ctx : Context Obj) :
    Except (PyError Ty) (PyVal Obj) :=
  match dictLookup c.type_dependencies t with
  | some v => .ok v
  | none =>
      if t == S.typeOf ctx.client || S.issubclass (S.typeOf ctx.client) t then
        .ok (.obj ctx.client)
      else
        let mapping := (c.get_component_mapping S).1
        if mapping.any (fun kv => kv.1 == t || S.issubclass kv.1 t) &&
            (dictLookup mapping t).isSome then
          match dictLookup mapping t with
          | some comp => .ok (.obj comp)
          | none => .error (.unresolvedType t)
        else
          match ctx.component with
          | .obj comp => .ok (.obj comp)
          | _ => .error (.unresolvedType t)

/-- The amended resolution order, following the source's guards: (1) an
exact `type_dependencies` entry; (2) else, if the requested type is a
subclass of the `Client` trait type, the context's client; (3) else, only
if the requested type is a subclass of the `Component` trait type: a
truthy component that the (possibly rebuilt) component mapping resolves
the type to; (4) still only for `Component` subclasses, a truthy current
component of the context; (5) else an unresolved-dependency error naming
the type. -/
def resolutionOrderAmended {Ty Obj : Type} [DecidableEq Ty] [DecidableEq Obj]
    (S : PySem Ty Obj) (c : InjectorClient Ty Obj) (t : Ty) (ctx : Context Obj) :
    Except (PyError Ty) (PyVal Obj) × InjectorClient Ty Obj :=
  match dictLookup c.type_dependencies t with
  | some v => (.ok v, c)
  | none =>
      if S.issubclass t S.clientTrait then (.ok (.obj ctx.client), c)
      else if S.issubclass t S.componentTrait then
        let (mapping, c') := c.get_component_mapping S
        let truthyHit := match dictLookup mapping t with
                         | some comp => if S.truthy comp then some comp else none
                         | none => none
        match truthyHit with
        | some comp => (.ok (.obj comp), c')
        | none =>
            if (ctx.component).truthy S then (.ok ctx.component, c')
            else (.error (.unresolvedType t), c')
      else (.error (.unresolvedType t), c)

/-! Concrete instantiations used to evaluate the definitions.  Types and
objects are both natural numbers; `issubclass` is plain equality of
types, type `0` is the `Client` trait, type `1` is the `Component` trait,
an object `o` has runtime type `o + 100`, and an object is truthy exactly
when it is nonzero. -/

/-- A concrete semantics record with an empty signature table. -/
def semA : PySem Nat Nat :=
  { issubclass := fun a b => a == b
    typeOf := fun o => o + 100
    truthy := fun o => o != 0
    clientTrait := 0
    componentTrait := 1
    signature := fun _ => [] }

/-- Like `semA` but with one callback (object `0`) whose signature has a single
keyword parameter `arg` defaulted to the marker `Injected(type=5)`. -/
def semB : PySem Nat Nat :=
  { semA with
    signature := fun cb =>
      if cb = 0 then
        [("arg", { kind := .keywordOnly, default := .injected { callback := .undefined, type_ := .val 5 } })]
      else [] }

/-- A concrete semantics record with a richer class universe: the client
object `7` has runtime type `107`, and `107` subclasses both the `Client`
trait `0` and the root type `9` (so the realistic constraint that the
context's client is an instance of the `Client` trait holds), while `9`
itself subclasses neither trait. -/
def semC : PySem Nat Nat :=
  { semA with
    issubclass := fun a b => a == b || (a == 107 && (b == 0 || b == 9)) }

/-- An `InjectorClient` with every mapping empty and no components. -/
def emptyClient : InjectorClient Nat Nat :=
  { callback_overrides := []
    client_components := []
    component_mapping_values := []
    component_mapping := []
    type_dependencies := [] }

/-- A context whose client is object `7` and whose current component is
the truthy object `3`. -/
def ctxA : Context Nat :=
  { client := 7, component := .obj 3 }

/-- A context whose client is object `7` and which has no current
component (`ctx.component` is `None`). -/
def ctxNone : Context Nat :=
  { client := 7, component := .pynone }

/-- A context whose client is object `7` and whose current component is
the FALSY object `0`. -/
def ctxFalsyComp : Context Nat :=
  { client := 7, component := .obj 0 }

/-- Like `emptyClient` but with a cached component mapping sending type `1` to the
FALSY component object `0` (the cache is valid: its snapshot and the
host's component collection are both empty). -/
def clientFalsyComp : InjectorClient Nat Nat :=
  { emptyClient with component_mapping := [(1, 0)] }

/-- Like `emptyClient` but with the type dependency `5 ↦ obj 42` registered. -/
def clientDep5 : InjectorClient Nat Nat :=
  emptyClient.add_type_dependency 5 (.obj 42)

/-- A bound wrapper around callback `0` whose `_cached_getters` slot holds
the mapping `cfg ↦ make_type_getter 5`, as after a successful first
invocation would have cached it. -/
def chkCached : InjectableCheck Nat Nat :=
  { callback := 0
    cached_getters := .set (some [("cfg", InjectorClient.make_type_getter semA 5)])
    injector := some clientDep5
    is_async := none }

/-- A callback behaviour answering `True` exactly when it is called with
keyword arguments. -/
def kwProbe : Nat → SuppliedArgs Nat → CallResult Nat :=
  fun _ args =>
    match args with
    | .keyword _ => .value (.bool true)
    | .positional _ => .value (.bool false)

/-- A callback behaviour answering `True` exactly when it is called with
the single positional argument `"cfg"` (the parameter NAME, not its
resolved value). -/
def posProbe : Nat → SuppliedArgs Nat → CallResult Nat :=
  fun _ args =>
    match args with
    | .positional names => .value (.bool (names == ["cfg"]))
    | .keyword _ => .value (.bool false)

/-! Helper lemmas about the dictionary and set models. -/

/-- Looking up the key just inserted finds the inserted value. -/
theorem dictLookup_dictInsert_self {α β : Type} [DecidableEq α]
    (d : List (α × β)) (k : α) (v : β) : dictLookup (dictInsert d k v) k = some v := by
  induction d with
  | nil => simp [dictInsert, dictLookup]
  | cons hd tl ih =>
      obtain ⟨k', v'⟩ := hd
      by_cases h : k' = k
      · simp [dictInsert, dictLookup, h]
      · simp [dictInsert, dictLookup, h, ih]

/-- Python set equality is reflexive: a collection always equals itself
as a set. -/
theorem listSetEq_self {α : Type} [DecidableEq α] (l : List α) : listSetEq l l = true := by
  simp [listSetEq, List.all_eq_true]

/-- C3: a value registered for a type via `add_type_dependency` is what the
type getter for that type returns, under every context, every semantics
(in particular whatever the `issubclass` relation makes of the client and
component traits), and every prior client state. -/
theorem registered_dependency_always_returned {Ty Obj : Type} [DecidableEq Ty]
    [DecidableEq Obj] (S : PySem Ty Obj) (c : InjectorClient Ty Obj) (t : Ty)
    (v : PyVal Obj) (ctx : Context Obj) :
    (InjectorClient.make_type_getter S t).run S (c.add_type_dependency t v) ctx =
      (.ok v, c.add_type_dependency t v) := by
  simp [Getter.run, InjectorClient.make_type_getter, InjectorClient.add_type_dependency,
    dictLookup_dictInsert_self]

/-- C9: `_get_component_mapping` is idempotent — after one call, calling
again with the host's component set unchanged returns the very same
mapping and the very same state (a cache hit, no rebuild). -/
theorem component_mapping_idempotent {Ty Obj : Type} [DecidableEq Ty] [DecidableEq Obj]
    (S : PySem Ty Obj) (c : InjectorClient Ty Obj) :
    ((c.get_component_mapping S).2).get_component_mapping S = c.get_component_mapping S := by
  unfold InjectorClient.get_component_mapping
  by_cases h : listSetEq c.component_mapping_values c.client_components
  · simp [h]
  · simp [h, listSetEq_self]

/-- C8: a type with no `type_dependencies` entry whose `issubclass` tests
against both the `Client` and the `Component` trait types fail makes the
type getter raise the unresolved-dependency error carrying that type, on
every context. -/
theorem unresolved_type_raises {Ty Obj : Type} [DecidableEq Ty] [DecidableEq Obj]
    (S : PySem Ty Obj) (c : InjectorClient Ty Obj) (t : Ty) (ctx : Context Obj)
    (h1 : dictLookup c.type_dependencies t = none)
    (h2 : S.issubclass t S.clientTrait = false)
    (h3 : S.issubclass t S.componentTrait = false) :
    (InjectorClient.make_type_getter S t).run S c ctx = (.error (.unresolvedType t), c) := by
  simp [Getter.run, InjectorClient.make_type_getter, h1, h2, h3]

/-- Witness for C8: the unregistered, unrelated type `5` on an empty
registry raises the unresolved error naming `5`, even though the context
carries a truthy current component. -/
theorem unresolved_type_raises_witness :
    dictLookup emptyClient.type_dependencies 5 = none ∧
    semA.issubclass 5 semA.clientTrait = false ∧
    semA.issubclass 5 semA.componentTrait = false ∧
    (InjectorClient.make_type_getter semA 5).run semA emptyClient ctxA =
      (.error (.unresolvedType 5), emptyClient) :=
  ⟨rfl, rfl, rfl, unresolved_type_raises semA emptyClient 5 ctxA rfl rfl rfl⟩

/-- C10: when the component mapping resolves a component-typed request to a
FALSY component, the walrus-and-truthiness test on line 139 skips it: the
getter falls through to the current-component fallback when the context's
component is truthy, and to the unresolved-dependency error otherwise. -/
theorem falsy_mapped_component_skipped {Ty Obj : Type} [DecidableEq Ty] [DecidableEq Obj]
    (S : PySem Ty Obj) (c : InjectorClient Ty Obj) (t : Ty) (ctx : Context Obj) (comp : Obj)
    (h1 : dictLookup c.type_dependencies t = none)
    (h2 : S.issubclass t S.clientTrait = false)
    (h3 : S.issubclass t S.componentTrait = true)
    (h4 : dictLookup (c.get_component_mapping S).1 t = some comp)
    (h5 : S.truthy comp = false) :
    (InjectorClient.make_type_getter S t).run S c ctx =
      (if (ctx.component).truthy S then .ok ctx.component else .error (.unresolvedType t),
       (c.get_component_mapping S).2) := by
  unfold Getter.run InjectorClient.make_type_getter
  rcases hm : c.get_component_mapping S with ⟨mapping, c'⟩
  rw [hm] at h4
  simp [h1, h2, h3, h4, h5, hm]
  split <;> rfl

/-- Witness for C10: type `1` maps to the falsy component `0` in the (valid)
cached component mapping, yet the getter answers with the context's truthy
current component `3` instead. -/
theorem falsy_mapped_component_skipped_witness :
    dictLookup clientFalsyComp.type_dependencies 1 = none ∧
    semA.issubclass 1 semA.clientTrait = false ∧
    semA.issubclass 1 semA.componentTrait = true ∧
    dictLookup (clientFalsyComp.get_component_mapping semA).1 1 = some 0 ∧
    semA.truthy 0 = false ∧
    (InjectorClient.make_type_getter semA 1).run semA clientFalsyComp ctxA =
      (.ok (.obj 3), clientFalsyComp) := by
  refine ⟨rfl, rfl, rfl, rfl, rfl, ?_⟩
  have h := falsy_mapped_component_skipped semA clientFalsyComp 1 ctxA 0 rfl rfl rfl rfl rfl
  simpa using h

/-- C2 counterexample, four concrete inputs under `semC` on which the
resolution order exactly as the claim states it disagrees with the getter
the code builds.  (a) Step 4 as an unconditional last resort: for the
unrelated type `5` with a truthy current component present, the stated
order answers that component, the code raises.  (b) Step 2 as "the host
client's type or a supertype of it": for type `9`, a strict supertype of
the client's runtime type `107` that does not subclass the `Client`
trait, the stated order answers the client, the code raises.  (c) Step 3
without a truthiness test: for the component type `1` mapped to the falsy
component `0`, the stated order answers that component, the code raises.
(d) Step 4 without a truthiness test: for the component type `1` with an
empty mapping and the falsy current component `0`, the stated order
answers that component, the code raises. -/
theorem resolution_order_as_stated_refuted :
    (specTypeGetterStated semC emptyClient 5 ctxA = .ok (.obj 3) ∧
     (InjectorClient.make_type_getter semC 5).run semC emptyClient ctxA =
       (.error (.unresolvedType 5), emptyClient)) ∧
    (specTypeGetterStated semC emptyClient 9 ctxNone = .ok (.obj 7) ∧
     (InjectorClient.make_type_getter semC 9).run semC emptyClient ctxNone =
       (.error (.unresolvedType 9), emptyClient)) ∧
    (specTypeGetterStated semC clientFalsyComp 1 ctxNone = .ok (.obj 0) ∧
     (InjectorClient.make_type_getter semC 1).run semC clientFalsyComp ctxNone =
       (.error (.unresolvedType 1), clientFalsyComp)) ∧
    (specTypeGetterStated semC emptyClient 1 ctxFalsyComp = .ok (.obj 0) ∧
     (InjectorClient.make_type_getter semC 1).run semC emptyClient ctxFalsyComp =
       (.error (.unresolvedType 1), emptyClient)) :=
  ⟨⟨rfl, rfl⟩, ⟨rfl, rfl⟩, ⟨rfl, rfl⟩, ⟨rfl, rfl⟩⟩

/-- C2 amended: the getter from `_make_type_getter` follows the amended
resolution order — dependency entry first; else the context's client when
the type subclasses the `Client` trait; else, ONLY when the type
subclasses the `Component` trait, a truthy mapped component and then a
truthy current component; else the unresolved-dependency error naming the
type. -/
theorem type_getter_follows_amended_order {Ty Obj : Type} [DecidableEq Ty] [DecidableEq Obj]
    (S : PySem Ty Obj) (c : InjectorClient Ty Obj) (t : Ty) (ctx : Context Obj) :
    (InjectorClient.make_type_getter S t).run S c ctx = resolutionOrderAmended S c t ctx := by
  unfold Getter.run InjectorClient.make_type_getter resolutionOrderAmended
  cases h1 : dictLookup c.type_dependencies t with
  | some v => simp [h1]
  | none =>
      by_cases h2 : S.issubclass t S.clientTrait
      · simp [h1, h2]
      · by_cases h3 : S.issubclass t S.componentTrait
        · rcases hm : c.get_component_mapping S with ⟨mapping, c'⟩
          cases h4 : dictLookup mapping t with
          | some comp =>
              by_cases h5 : S.truthy comp <;> simp [h1, h2, h3, hm, h4, h5]
          | none => simp [h1, h2, h3, hm, h4]
        · simp [h1, h2, h3]

/-- C1: any callback whose signature starts with a parameter defaulted to
an `Injected` marker makes `resolve_callback_to_getters` raise
`TypeError` — the guard on line 155 passes the marker instance as the
`classinfo` argument of `isinstance` — instead of producing a getter entry
for it. -/
theorem injected_parameter_raises_type_error {Ty Obj : Type} [DecidableEq Ty] [DecidableEq Obj]
    (S : PySem Ty Obj) (cb : Obj) (name : String) (k : ParamKind)
    (m : InjectedMarker Ty Obj) (rest : List (String × Param Ty Obj))
    (h : S.signature cb = (name, { kind := k, default := .injected m }) :: rest) :
    InjectorClient.resolve_callback_to_getters S cb =
      .error (.typeError "isinstance() arg 2 must be a type or tuple of types") := by
  unfold InjectorClient.resolve_callback_to_getters
  rw [h]
  rfl

/-- Witness for C1: the callback `0` of `semB`, declared as
`check(arg=Injected(type=5))`, makes the resolver raise `TypeError`. -/
theorem injected_parameter_raises_type_error_witness :
    semB.signature 0 =
      [("arg", { kind := .keywordOnly,
                 default := .injected { callback := .undefined, type_ := .val 5 } })] ∧
    InjectorClient.resolve_callback_to_getters semB 0 =
      .error (.typeError "isinstance() arg 2 must be a type or tuple of types") :=
  ⟨rfl, injected_parameter_raises_type_error semB 0 "arg" .keywordOnly
    { callback := .undefined, type_ := .val 5 } [] rfl⟩

/-- C5: the dispatch on `if parameter.default.callback:` routes a marker
holding a truthy callable to a callback getter for it (as the claim says),
but — because the `UNDEFINED` sentinel is itself truthy — it ALSO routes a
type-only marker to a callback getter holding `UNDEFINED`, never to
`_make_type_getter` of the marker's type. -/
theorem marker_dispatch_on_truthiness {Ty Obj : Type} [DecidableEq Ty] [DecidableEq Obj]
    (S : PySem Ty Obj) (t : Ty) (f : Obj) (h : S.truthy f = true) :
    paramGetter S { callback := .val f, type_ := .undefined } =
      .ok (InjectorClient.make_callback_getter (.val f)) ∧
    paramGetter S { callback := .undefined, type_ := .val t } =
      .ok (InjectorClient.make_callback_getter .undefined) := by
  constructor
  · simp [paramGetter, UndefinedOr.truthy, h]
  · rfl

/-- Witness for C5: under `semA`, a marker holding the truthy callable `3`
yields its callback getter, and the marker `Injected(type=5)` yields a
callback getter holding `UNDEFINED`. -/
theorem marker_dispatch_on_truthiness_witness :
    semA.truthy 3 = true ∧
    (paramGetter semA { callback := .val 3, type_ := .undefined } =
        .ok (InjectorClient.make_callback_getter (.val 3)) ∧
     paramGetter semA { callback := .undefined, type_ := .val 5 } =
        .ok (InjectorClient.make_callback_getter .undefined)) :=
  ⟨rfl, marker_dispatch_on_truthiness semA 5 3 rfl⟩

/-- C4: the call expression on line 201 star-unpacks the dict of resolved
values, so the wrapped callback receives the parameter NAMES as
positional arguments and never any keyword argument: a bound wrapper with
the cached getter `cfg ↦ make_type_getter 5` (which resolves to `obj 42`)
answers `False` through a callback that reports whether it was called with
keyword arguments, and `True` through one that reports whether it was
called with the single positional argument `"cfg"`. -/
theorem call_star_unpacks_names_positionally :
    InjectableCheck.call semA kwProbe chkCached ctxA =
      (.ok (.bool false), { chkCached with is_async := some false }) ∧
    InjectableCheck.call semA posProbe chkCached ctxA =
      (.ok (.bool true), { chkCached with is_async := some false }) :=
  ⟨rfl, rfl⟩

/-- C6: `__init__` only ANNOTATES `_cached_getters` without assigning it,
so while attaching an injector to a fresh wrapper succeeds, the very first
invocation raises `AttributeError` on reading the slot instead of
computing and caching the getter mapping. -/
theorem first_call_raises_attribute_error {Ty Obj : Type} [DecidableEq Ty] [DecidableEq Obj]
    (S : PySem Ty Obj) (callEval : Obj → SuppliedArgs Obj → CallResult Obj) (cb : Obj)
    (inj : InjectorClient Ty Obj) (ctx : Context Obj) :
    (InjectableCheck.init cb).add_injector inj =
      .ok { callback := cb, cached_getters := .unset, injector := some inj, is_async := none } ∧
    InjectableCheck.call S callEval
      { callback := cb, cached_getters := .unset, injector := some inj, is_async := none } ctx =
      (.error (.attributeError "_cached_getters"),
       { callback := cb, cached_getters := .unset, injector := some inj, is_async := none }) :=
  ⟨rfl, rfl⟩

/-- Invoking `__call__` never clears the injector: starting from a bound wrapper,
the wrapper state it returns is still bound. -/
theorem call_keeps_injector_set {Ty Obj : Type} [DecidableEq Ty] [DecidableEq Obj]
    (S : PySem Ty Obj) (callEval : Obj → SuppliedArgs Obj → CallResult Obj)
    (chk : InjectableCheck Ty Obj) (i : InjectorClient Ty Obj) (ctx : Context Obj) :
    ((InjectableCheck.call S callEval { chk with injector := some i } ctx).2).injector.isSome
      = true := by
  obtain ⟨cb0, cg0, inj0, ia0⟩ := chk
  unfold InjectableCheck.call
  cases cg0 with
  | unset => rfl
  | set slot =>
      rcases hg : (match slot with
                   | some g => Except.ok g
                   | none => InjectorClient.resolve_callback_to_getters S cb0 :
          Except (PyError Ty) (List (String × Getter Ty Obj))) with e | getters
      · simp [hg]
      · simp only [hg]
        rcases hr : resolveGetters S getters i ctx with ⟨r, inj'⟩
        cases r with
        | error e => simp [hr]
        | ok pairs =>
            cases ia0 with
            | none => simp [hr]
            | some flag => simp [hr]

/-- C7: the wrapper's two-phase lifecycle — a fresh wrapper is unbound;
`add_injector` on an unbound wrapper succeeds and stores the injector;
`add_injector` on a wrapper that already holds one raises the
configuration error; invoking an unbound wrapper raises the configuration
error and leaves the state untouched; and invoking a bound wrapper always
leaves it bound. -/
theorem wrapper_state_machine {Ty Obj : Type} [DecidableEq Ty] [DecidableEq Obj]
    (S : PySem Ty Obj) (callEval : Obj → SuppliedArgs Obj → CallResult Obj) (cb : Obj)
    (i inj2 : InjectorClient Ty Obj) (chk : InjectableCheck Ty Obj) (ctx : Context Obj) :
    (InjectableCheck.init cb : InjectableCheck Ty Obj).injector = none ∧
    (InjectableCheck.init cb : InjectableCheck Ty Obj).add_injector i =
      .ok { InjectableCheck.init cb with injector := some i } ∧
    ({ chk with injector := some i }).add_injector inj2 =
      .error (.runtimeError "Injector already set for this check") ∧
    InjectableCheck.call S callEval { chk with injector := none } ctx =
      (.error (.runtimeError "Cannot call an injectable check before the injector has been set"),
       { chk with injector := none }) ∧
    ((InjectableCheck.call S callEval { chk with injector := some i } ctx).2).injector.isSome
      = true :=
  ⟨rfl, rfl, rfl, rfl, call_keeps_injector_set S callEval chk i ctx⟩

end Tanjun
